import Mathlib

set_option linter.unusedVariables false

/-!
Verification development for the Riptide ResNetV1b architecture-construction
module (`riptide/models/resnetv1b.py`).

The Python module builds configuration graphs of convolution, normalization,
activation and pooling layers.  We embed the construction logic shallowly:
each Keras layer becomes a record of the configuration arguments the source
passes to it (filter count, kernel size, strides, dilation rate, bias flag,
gamma-zero initialization flag, pool size).  External concerns that no part
of the construction logic branches on — the tensor layout tag
(`data_format`), the normalization-layer factory object and its opaque
keyword options (`norm_layer`, `norm_kwargs`), and layer name scoping — are
omitted; the norm records keep only the one option the source itself sets
(`gamma_initializer='zeros'`, modeled as the Boolean field `gamma_zeros`).
Fallible construction (`raise RuntimeError`) is modeled with `Except`.
-/

namespace Riptide

/-- Configuration of a Keras `Conv2D` layer as constructed by the source.
Keras defaults apply where the source omits an argument: `strides=1`,
`dilation_rate=1`. -/
structure Conv2D where
  filters : Nat
  kernel_size : Nat
  strides : Nat
  dilation_rate : Nat
  use_bias : Bool
deriving DecidableEq

/-- Configuration of a normalization layer.  The source either constructs
`norm_layer(**norm_kwargs)` (plain, `gamma_zeros = false`) or
`norm_layer(gamma_initializer='zeros', **norm_kwargs)` (`gamma_zeros = true`). -/
structure NormSpec where
  gamma_zeros : Bool
deriving DecidableEq

/-- Configuration of a pooling layer (`pool_size`, `strides`). -/
structure Pool2D where
  pool_size : Nat
  strides : Nat
deriving DecidableEq

/-- The downsample sub-graph built by `ResNetV1b._make_layer` (source lines
324-358): an optional average-pool (present exactly when `avg_down` is set),
then a 1x1 convolution, then a normalization layer. -/
structure Downsample where
  avgpool : Option Pool2D
  conv : Conv2D
  norm : NormSpec
deriving DecidableEq

/-- The layers `BasicBlockV1b.__init__` constructs (source lines 16-48).
The two activations (`relu1`, `relu2`) carry no configuration and are left
implicit; `strides` mirrors the attribute stored at line 48. -/
structure BasicBlock where
  conv1 : Conv2D
  bn1 : NormSpec
  conv2 : Conv2D
  bn2 : NormSpec
  downsample : Option Downsample
  strides : Nat
deriving DecidableEq

/-- `BasicBlockV1b.__init__`: conv1 is 3x3 at the given strides and dilation,
conv2 is 3x3 stride-1 at `previous_dilation`; both norms are plain.  The
`last_gamma` keyword is accepted through `**kwargs` by the source and ignored. -/
def BasicBlockV1b (planes strides dilation : Nat) (downsample : Option Downsample)
    (previous_dilation : Nat) (last_gamma : Bool) : BasicBlock :=
  ⟨⟨planes, 3, strides, dilation, false⟩, ⟨false⟩,
   ⟨planes, 3, 1, previous_dilation, false⟩, ⟨false⟩,
   downsample, strides⟩

/-- The layers `BottleneckV1b.__init__` constructs (source lines 75-116).
`dilation` and `strides` mirror the attributes stored at lines 115-116. -/
structure BottleneckBlock where
  conv1 : Conv2D
  bn1 : NormSpec
  conv2 : Conv2D
  bn2 : NormSpec
  conv3 : Conv2D
  bn3 : NormSpec
  downsample : Option Downsample
  dilation : Nat
  strides : Nat
deriving DecidableEq

/-- `BottleneckV1b.__init__`: conv1 is 1x1 (Keras default stride 1), conv2 is
3x3 at the given strides and dilation, conv3 is 1x1 with `planes * 4` filters;
`bn3` gets the zero gamma initializer exactly when `last_gamma` is set.  The
`previous_dilation` argument is accepted by the source and never used. -/
def BottleneckV1b (planes strides dilation : Nat) (downsample : Option Downsample)
    (previous_dilation : Nat) (last_gamma : Bool) : BottleneckBlock :=
  ⟨⟨planes, 1, 1, 1, false⟩, ⟨false⟩,
   ⟨planes, 3, strides, dilation, false⟩, ⟨false⟩,
   ⟨planes * 4, 1, 1, 1, false⟩, ⟨last_gamma⟩,
   downsample, dilation, strides⟩

/-- The two residual block classes the module defines. -/
inductive BlockKind
  | basic
  | bottleneck
deriving DecidableEq

/-- Class attribute `expansion`: 1 for `BasicBlockV1b`, 4 for `BottleneckV1b`. -/
def BlockKind.expansion : BlockKind → Nat
  | .basic => 1
  | .bottleneck => 4

/-- A constructed residual block of either kind. -/
inductive Block
  | basic (b : BasicBlock)
  | bottleneck (b : BottleneckBlock)
deriving DecidableEq

/-- The downsample sub-graph attached to a block of either kind. -/
def Block.downsample : Block → Option Downsample
  | .basic b => b.downsample
  | .bottleneck b => b.downsample

/-- Symbolic tensor expressions: the forward computation of a block applies
layers to an input tensor; we record the applications syntactically. -/
inductive TensorExpr
  | input
  | conv (c : Conv2D) (e : TensorExpr)
  | norm (n : NormSpec) (e : TensorExpr)
  | relu (e : TensorExpr)
  | avgpool (p : Pool2D) (e : TensorExpr)
  | add (a b : TensorExpr)
deriving DecidableEq

/-- Number of normalization-layer applications in a tensor expression. -/
def TensorExpr.normCount : TensorExpr → Nat
  | .input => 0
  | .conv _ e => e.normCount
  | .norm _ e => 1 + e.normCount
  | .relu e => e.normCount
  | .avgpool _ e => e.normCount
  | .add a b => a.normCount + b.normCount

/-- Number of activation applications in a tensor expression. -/
def TensorExpr.reluCount : TensorExpr → Nat
  | .input => 0
  | .conv _ e => e.reluCount
  | .norm _ e => e.reluCount
  | .relu e => 1 + e.reluCount
  | .avgpool _ e => e.reluCount
  | .add a b => a.reluCount + b.reluCount

/-- Applying a downsample sub-graph to a tensor: the source stores the
sub-graph as a list (optional average-pool, 1x1 conv, norm) and the `forward`
helper applies the list elements in order. -/
def Downsample.apply (d : Downsample) (x : TensorExpr) : TensorExpr :=
  let pooled := match d.avgpool with
    | some p => TensorExpr.avgpool p x
    | none => x
  TensorExpr.norm d.norm (TensorExpr.conv d.conv pooled)

/-- `BasicBlockV1b.call` (source lines 50-66): conv1, bn1, relu1, conv2, bn2
on the main path; the residual is `downsample(x)` when a downsample is
present and `x` otherwise; then add and a final activation. -/
def BasicBlock.call (b : BasicBlock) (x : TensorExpr) : TensorExpr :=
  let out := TensorExpr.conv b.conv1 x
  let out := TensorExpr.norm b.bn1 out
  let out := TensorExpr.relu out
  let out := TensorExpr.conv b.conv2 out
  let out := TensorExpr.norm b.bn2 out
  let residual := match b.downsample with
    | some d => d.apply x
    | none => x
  TensorExpr.relu (TensorExpr.add out residual)

/-- The arguments `_make_layer` passes to the block constructor, in the
order of the constructor signature (the normalization factory, its options
and the layout tag are external and omitted). -/
structure BlockArgs where
  planes : Nat
  strides : Nat
  dilation : Nat
  downsample : Option Downsample
  previous_dilation : Nat
  last_gamma : Bool
deriving DecidableEq

/-- Downsample construction in `ResNetV1b._make_layer` (source lines
324-358): a sub-graph is built exactly when `strides != 1` or the
accumulated `inplanes` differs from `planes * expansion`.  With `avg_down`
it is average-pool (pool size and stride equal to `strides` when
`dilation == 1`, both 1 otherwise), then a stride-1 1x1 conv with
`planes * expansion` filters, then a norm; without `avg_down` it is a 1x1
conv with `planes * expansion` filters at stride `strides`, then a norm. -/
def make_downsample (expansion inplanes planes strides dilation : Nat)
    (avg_down : Bool) : Option Downsample :=
  if strides ≠ 1 ∨ inplanes ≠ planes * expansion then
    some
      (if avg_down then
        ⟨some (if dilation = 1 then ⟨strides, strides⟩ else ⟨1, 1⟩),
         ⟨planes * expansion, 1, 1, 1, false⟩, ⟨false⟩⟩
      else
        ⟨none, ⟨planes * expansion, 1, strides, 1, false⟩, ⟨false⟩⟩)
  else
    none

/-- `ResNetV1b._make_layer` (source lines 313-400), generic over the block
constructor exactly as the Python method is generic over the `block` class
argument.  With dilation 1 or 2 the first block gets own dilation 1 and
`previous_dilation` equal to the request; with dilation 4 it gets own
dilation 2; any other dilation raises (`RuntimeError` in the source,
`Except.error` here).  The remaining `blocks - 1` blocks use the Python
defaults `strides=1`, `downsample=None` and pass the requested dilation as
both dilation and `previous_dilation`.  On success the updated `inplanes`
accumulator (`planes * expansion`, source line 388) is returned alongside
the stage. -/
def make_layer_gen {β : Type} (blockCtor : BlockArgs → β) (expansion : Nat)
    (inplanes planes blocks strides dilation : Nat)
    (avg_down last_gamma : Bool) : Except String (List β × Nat) :=
  if dilation = 1 ∨ dilation = 2 then
    .ok (blockCtor ⟨planes, strides, 1,
      make_downsample expansion inplanes planes strides dilation avg_down,
      dilation, last_gamma⟩ ::
      List.replicate (blocks - 1) (blockCtor ⟨planes, 1, dilation, none, dilation, last_gamma⟩),
      planes * expansion)
  else if dilation = 4 then
    .ok (blockCtor ⟨planes, strides, 2,
      make_downsample expansion inplanes planes strides dilation avg_down,
      dilation, last_gamma⟩ ::
      List.replicate (blocks - 1) (blockCtor ⟨planes, 1, dilation, none, dilation, last_gamma⟩),
      planes * expansion)
  else
    .error ("=> unknown dilation size: " ++ toString dilation)

/-- Instantiating the block-constructor argument with an actual block class,
as the assembler does. -/
def mkBlock (k : BlockKind) (a : BlockArgs) : Block :=
  match k with
  | .basic =>
      .basic (BasicBlockV1b a.planes a.strides a.dilation a.downsample
        a.previous_dilation a.last_gamma)
  | .bottleneck =>
      .bottleneck (BottleneckV1b a.planes a.strides a.dilation a.downsample
        a.previous_dilation a.last_gamma)

/-- `_make_layer` with a concrete block kind. -/
def make_layer (k : BlockKind) (inplanes planes blocks strides dilation : Nat)
    (avg_down last_gamma : Bool) : Except String (List Block × Nat) :=
  make_layer_gen (mkBlock k) k.expansion inplanes planes blocks strides dilation
    avg_down last_gamma

/-- Observation helper: the argument record `_make_layer` hands to the block
constructor for the first block of a stage (when the stage builds at all). -/
def first_block_args (expansion inplanes planes blocks strides dilation : Nat)
    (avg_down last_gamma : Bool) : Option BlockArgs :=
  match make_layer_gen (fun a => a) expansion inplanes planes blocks strides dilation
      avg_down last_gamma with
  | .ok (first :: _, _) => some first
  | _ => none

/-- One element of the stem list the assembler builds for `self.conv1`:
either a convolution, a normalization layer, or an activation. -/
inductive StemLayer
  | conv (c : Conv2D)
  | norm (n : NormSpec)
  | relu
deriving DecidableEq

/-- A built stage together with the `strides` and `dilation` arguments the
assembler passed to `_make_layer` for it (recorded so the build-time
configuration of each stage is observable). -/
structure Stage where
  strides : Nat
  dilation : Nat
  blocks : List Block
deriving DecidableEq

/-- The model state `ResNetV1b.__init__` leaves behind: the stem layer list,
the shared post-stem norm, the max-pool, the four stages, the final value of
the `inplanes` accumulator, the optional dropout rate, and the output unit
count of the dense head. -/
structure ResNetV1bModel where
  conv1 : List StemLayer
  bn1 : NormSpec
  maxpool : Pool2D
  layer1 : Stage
  layer2 : Stage
  layer3 : Stage
  layer4 : Stage
  inplanes : Nat
  drop : Option Rat
  fc_units : Nat
deriving DecidableEq

/-- Source line 193: `self.inplanes = stem_width * 2 if deep_stem else 64`. -/
def init_inplanes (deep_stem : Bool) (stem_width : Nat) : Nat :=
  if deep_stem then stem_width * 2 else 64

/-- `ResNetV1b.__init__` (source lines 178-311).  The stem is one 7x7
stride-2 64-filter conv without deep stem, or the three-conv deep stem with
interleaved norm and activation layers; then the shared norm, activation and
3x3 stride-2 max-pool; then the four `_make_layer` calls with the literal
arguments of lines 243-305 (stage strides/dilations depending on `dilated`);
then the classifier head with dropout only when `final_drop > 0`. -/
def ResNetV1b_init (block : BlockKind) (layers : List Nat) (classes : Nat)
    (dilated : Bool) (last_gamma : Bool) (deep_stem : Bool) (stem_width : Nat)
    (avg_down : Bool) (final_drop : Rat) : Except String ResNetV1bModel :=
  let inplanes := init_inplanes deep_stem stem_width
  let conv1 : List StemLayer :=
    if ¬ deep_stem then
      [StemLayer.conv ⟨64, 7, 2, 1, false⟩]
    else
      [StemLayer.conv ⟨stem_width, 3, 2, 1, false⟩, StemLayer.norm ⟨false⟩, StemLayer.relu,
       StemLayer.conv ⟨stem_width, 3, 1, 1, false⟩, StemLayer.norm ⟨false⟩, StemLayer.relu,
       StemLayer.conv ⟨stem_width * 2, 3, 1, 1, false⟩]
  let drop : Option Rat := if 0 < final_drop then some final_drop else none
  match make_layer block inplanes 64 (layers.getD 0 0) 1 1 avg_down last_gamma with
  | .error e => .error e
  | .ok (b1, ip1) =>
    match make_layer block ip1 128 (layers.getD 1 0) 2 1 avg_down last_gamma with
    | .error e => .error e
    | .ok (b2, ip2) =>
      if dilated then
        match make_layer block ip2 256 (layers.getD 2 0) 1 2 avg_down last_gamma with
        | .error e => .error e
        | .ok (b3, ip3) =>
          match make_layer block ip3 512 (layers.getD 3 0) 1 4 avg_down last_gamma with
          | .error e => .error e
          | .ok (b4, ip4) =>
            .ok ⟨conv1, ⟨false⟩, ⟨3, 2⟩, ⟨1, 1, b1⟩, ⟨2, 1, b2⟩, ⟨1, 2, b3⟩, ⟨1, 4, b4⟩,
              ip4, drop, classes⟩
      else
        match make_layer block ip2 256 (layers.getD 2 0) 2 1 avg_down last_gamma with
        | .error e => .error e
        | .ok (b3, ip3) =>
          match make_layer block ip3 512 (layers.getD 3 0) 2 1 avg_down last_gamma with
          | .error e => .error e
          | .ok (b4, ip4) =>
            .ok ⟨conv1, ⟨false⟩, ⟨3, 2⟩, ⟨1, 1, b1⟩, ⟨2, 1, b2⟩, ⟨2, 1, b3⟩, ⟨2, 1, b4⟩,
              ip4, drop, classes⟩

/-- The configuration a variant constructor fixes before delegating to the
network assembler. -/
structure VariantConfig where
  block : BlockKind
  layers : List Nat
  deep_stem : Bool
  avg_down : Bool
  stem_width : Nat
  variant_name : String
deriving DecidableEq

/-- Delegation of a variant configuration to the assembler; the remaining
arguments (`classes`, `dilated`, `last_gamma`, `final_drop`) pass through
from the caller as the Python `**kwargs` do. -/
def apply_variant (v : VariantConfig) (classes : Nat) (dilated last_gamma : Bool)
    (final_drop : Rat) : Except String ResNetV1bModel :=
  ResNetV1b_init v.block v.layers classes dilated last_gamma v.deep_stem
    v.stem_width v.avg_down final_drop

/-!
The named variant constructor functions (source lines 424-735).  Each fixes
block kind, per-stage counts, stem/downsample flags and name prefix and
passes the remaining keyword arguments through to `ResNetV1b`; arguments the
Python call leaves out take the assembler defaults `deep_stem=False`,
`stem_width=32`, `avg_down=False`.
-/

def resnet18_v1b (classes : Nat) (dilated last_gamma : Bool) (final_drop : Rat) :
    Except String ResNetV1bModel :=
  ResNetV1b_init .basic [2, 2, 2, 2] classes dilated last_gamma false 32 false final_drop

def resnet34_v1b (classes : Nat) (dilated last_gamma : Bool) (final_drop : Rat) :
    Except String ResNetV1bModel :=
  ResNetV1b_init .basic [3, 4, 6, 3] classes dilated last_gamma false 32 false final_drop

def resnet50_v1b (classes : Nat) (dilated last_gamma : Bool) (final_drop : Rat) :
    Except String ResNetV1bModel :=
  ResNetV1b_init .bottleneck [3, 4, 6, 3] classes dilated last_gamma false 32 false final_drop

def resnet101_v1b (classes : Nat) (dilated last_gamma : Bool) (final_drop : Rat) :
    Except String ResNetV1bModel :=
  ResNetV1b_init .bottleneck [3, 4, 23, 3] classes dilated last_gamma false 32 false final_drop

def resnet152_v1b (classes : Nat) (dilated last_gamma : Bool) (final_drop : Rat) :
    Except String ResNetV1bModel :=
  ResNetV1b_init .bottleneck [3, 8, 36, 3] classes dilated last_gamma false 32 false final_drop

def resnet50_v1c (classes : Nat) (dilated last_gamma : Bool) (final_drop : Rat) :
    Except String ResNetV1bModel :=
  ResNetV1b_init .bottleneck [3, 4, 6, 3] classes dilated last_gamma true 32 false final_drop

def resnet101_v1c (classes : Nat) (dilated last_gamma : Bool) (final_drop : Rat) :
    Except String ResNetV1bModel :=
  ResNetV1b_init .bottleneck [3, 4, 23, 3] classes dilated last_gamma true 32 false final_drop

def resnet152_v1c (classes : Nat) (dilated last_gamma : Bool) (final_drop : Rat) :
    Except String ResNetV1bModel :=
  ResNetV1b_init .bottleneck [3, 8, 36, 3] classes dilated last_gamma true 32 false final_drop

def resnet50_v1d (classes : Nat) (dilated last_gamma : Bool) (final_drop : Rat) :
    Except String ResNetV1bModel :=
  ResNetV1b_init .bottleneck [3, 4, 6, 3] classes dilated last_gamma true 32 true final_drop

def resnet101_v1d (classes : Nat) (dilated last_gamma : Bool) (final_drop : Rat) :
    Except String ResNetV1bModel :=
  ResNetV1b_init .bottleneck [3, 4, 23, 3] classes dilated last_gamma true 32 true final_drop

def resnet152_v1d (classes : Nat) (dilated last_gamma : Bool) (final_drop : Rat) :
    Except String ResNetV1bModel :=
  ResNetV1b_init .bottleneck [3, 8, 36, 3] classes dilated last_gamma true 32 true final_drop

def resnet50_v1e (classes : Nat) (dilated last_gamma : Bool) (final_drop : Rat) :
    Except String ResNetV1bModel :=
  ResNetV1b_init .bottleneck [3, 4, 6, 3] classes dilated last_gamma true 64 true final_drop

def resnet101_v1e (classes : Nat) (dilated last_gamma : Bool) (final_drop : Rat) :
    Except String ResNetV1bModel :=
  ResNetV1b_init .bottleneck [3, 4, 23, 3] classes dilated last_gamma true 64 true final_drop

def resnet152_v1e (classes : Nat) (dilated last_gamma : Bool) (final_drop : Rat) :
    Except String ResNetV1bModel :=
  ResNetV1b_init .bottleneck [3, 8, 36, 3] classes dilated last_gamma true 64 true final_drop

def resnet50_v1s (classes : Nat) (dilated last_gamma : Bool) (final_drop : Rat) :
    Except String ResNetV1bModel :=
  ResNetV1b_init .bottleneck [3, 4, 6, 3] classes dilated last_gamma true 64 false final_drop

def resnet101_v1s (classes : Nat) (dilated last_gamma : Bool) (final_drop : Rat) :
    Except String ResNetV1bModel :=
  ResNetV1b_init .bottleneck [3, 4, 23, 3] classes dilated last_gamma true 64 false final_drop

def resnet152_v1s (classes : Nat) (dilated last_gamma : Bool) (final_drop : Rat) :
    Except String ResNetV1bModel :=
  ResNetV1b_init .bottleneck [3, 8, 36, 3] classes dilated last_gamma true 64 false final_drop

/-- The configurations the seventeen variant constructors fix, one entry per
named function in the module, in source order. -/
def all_variant_configs : List VariantConfig :=
  [⟨.basic, [2, 2, 2, 2], false, false, 32, "resnetv1b"⟩,
   ⟨.basic, [3, 4, 6, 3], false, false, 32, "resnetv1b"⟩,
   ⟨.bottleneck, [3, 4, 6, 3], false, false, 32, "resnetv1b"⟩,
   ⟨.bottleneck, [3, 4, 23, 3], false, false, 32, "resnetv1b"⟩,
   ⟨.bottleneck, [3, 8, 36, 3], false, false, 32, "resnetv1b"⟩,
   ⟨.bottleneck, [3, 4, 6, 3], true, false, 32, "resnetv1c_"⟩,
   ⟨.bottleneck, [3, 4, 23, 3], true, false, 32, "resnetv1c_"⟩,
   ⟨.bottleneck, [3, 8, 36, 3], true, false, 32, "resnetv1c_"⟩,
   ⟨.bottleneck, [3, 4, 6, 3], true, true, 32, "resnetv1d_"⟩,
   ⟨.bottleneck, [3, 4, 23, 3], true, true, 32, "resnetv1d_"⟩,
   ⟨.bottleneck, [3, 8, 36, 3], true, true, 32, "resnetv1d_"⟩,
   ⟨.bottleneck, [3, 4, 6, 3], true, true, 64, "resnetv1e_"⟩,
   ⟨.bottleneck, [3, 4, 23, 3], true, true, 64, "resnetv1e_"⟩,
   ⟨.bottleneck, [3, 8, 36, 3], true, true, 64, "resnetv1e_"⟩,
   ⟨.bottleneck, [3, 4, 6, 3], true, false, 64, "resnetv1s_"⟩,
   ⟨.bottleneck, [3, 4, 23, 3], true, false, 64, "resnetv1s_"⟩,
   ⟨.bottleneck, [3, 8, 36, 3], true, false, 64, "resnetv1s_"⟩]

/-! ## Helper lemmas -/

/-- Instantiating a block class preserves the downsample argument. -/
theorem mkBlock_downsample (k : BlockKind) (a : BlockArgs) :
    (mkBlock k a).downsample = a.downsample := by
  cases k <;> rfl

/-- The downsample sub-graph is built exactly under the source's condition
`strides != 1 or inplanes != planes * expansion`. -/
theorem make_downsample_isSome (e ip p s d : Nat) (a : Bool) :
    (make_downsample e ip p s d a).isSome = true ↔ (s ≠ 1 ∨ ip ≠ p * e) := by
  unfold make_downsample
  by_cases hc : s ≠ 1 ∨ ip ≠ p * e
  · rw [if_pos hc]; simpa using hc
  · rw [if_neg hc]; simpa using hc

/-! ## Claim theorems -/

/-- Claim C1, counterexample: for requested dilation 2 the stage builder
constructs the first block with own dilation 1, not 2, so dilation 2 does
not pass through unchanged as the block's own dilation. -/
theorem C1_counterexample :
    (first_block_args 1 64 128 2 2 2 false false).map BlockArgs.dilation = some 1 ∧
    (1 : Nat) ≠ 2 := by
  exact ⟨rfl, by decide⟩

/-- Claim C1 (amended): for every stage built by `_make_layer` with
requested dilation 1 or 2, the first block is constructed with its own
dilation equal to 1 and with previous-dilation equal to the requested
dilation; so requested dilation 1 passes through unchanged, while requested
dilation 2 reaches the first block only as its previous-dilation. -/
theorem C1_first_block_dilation (e ip p b s d : Nat) (a g : Bool)
    (h : d = 1 ∨ d = 2) :
    first_block_args e ip p b s d a g =
      some ⟨p, s, 1, make_downsample e ip p s d a, d, g⟩ := by
  rcases h with h | h <;> subst h <;> rfl

/-- Witness for C1 at requested dilation 2. -/
theorem C1_first_block_dilation_witness :
    first_block_args 1 64 128 2 2 2 false false =
      some ⟨128, 2, 1, some ⟨none, ⟨128, 1, 2, 1, false⟩, ⟨false⟩⟩, 2, false⟩ :=
  C1_first_block_dilation 1 64 128 2 2 2 false false (Or.inr rfl)

/-- Claim C2: for every stage-builder call with requested dilation 4 the
first block is constructed with own dilation 2 and previous-dilation 4, and
for any requested dilation other than 1, 2 or 4 the builder fails at build
time with the configuration error. -/
theorem C2_dilation_resolution {β : Type} (blockCtor : BlockArgs → β)
    (e ip p b s d : Nat) (a g : Bool) :
    (make_layer_gen blockCtor e ip p b s 4 a g =
      .ok (blockCtor ⟨p, s, 2, make_downsample e ip p s 4 a, 4, g⟩ ::
        List.replicate (b - 1) (blockCtor ⟨p, 1, 4, none, 4, g⟩), p * e)) ∧
    (d ≠ 1 → d ≠ 2 → d ≠ 4 →
      make_layer_gen blockCtor e ip p b s d a g =
        .error ("=> unknown dilation size: " ++ toString d)) := by
  constructor
  · rfl
  · intro h1 h2 h4
    unfold make_layer_gen
    rw [if_neg (by simp [h1, h2]), if_neg h4]

/-- Witness for C2 at concrete inputs: dilation 4 resolves to block dilation
2 with previous-dilation 4, and dilation 3 is rejected. -/
theorem C2_dilation_resolution_witness :
    (make_layer_gen (fun a => a) 1 64 64 1 1 4 false false =
      .ok ([⟨64, 1, 2, none, 4, false⟩], 64)) ∧
    make_layer_gen (fun a => a) 1 64 64 1 1 3 false false =
      .error "=> unknown dilation size: 3" :=
  ⟨(C2_dilation_resolution (fun a => a) 1 64 64 1 1 3 false false).1,
   (C2_dilation_resolution (fun a => a) 1 64 64 1 1 3 false false).2
     (by decide) (by decide) (by decide)⟩

/-- Claim C3: a stage's first block carries a downsample sub-graph exactly
when `strides != 1` or the accumulated `inplanes` differs from
`planes * expansion`, and no later block of the stage carries one. -/
theorem C3_downsample_iff (k : BlockKind) (ip p b s d : Nat) (a g : Bool)
    (stage : List Block) (ip2 : Nat)
    (h : make_layer k ip p b s d a g = .ok (stage, ip2)) :
    ∃ first rest, stage = first :: rest ∧
      first.downsample = make_downsample k.expansion ip p s d a ∧
      (first.downsample.isSome = true ↔ (s ≠ 1 ∨ ip ≠ p * k.expansion)) ∧
      ∀ blk ∈ rest, blk.downsample = none := by
  unfold make_layer make_layer_gen at h
  by_cases h12 : d = 1 ∨ d = 2
  · rw [if_pos h12] at h
    injection h with h1
    injection h1 with hL hP
    refine ⟨_, _, hL.symm, mkBlock_downsample k _, ?_, ?_⟩
    · rw [mkBlock_downsample]
      exact make_downsample_isSome k.expansion ip p s d a
    · intro blk hblk
      rw [List.eq_of_mem_replicate hblk, mkBlock_downsample]
  · by_cases h4 : d = 4
    · rw [if_neg h12, if_pos h4] at h
      injection h with h1
      injection h1 with hL hP
      refine ⟨_, _, hL.symm, mkBlock_downsample k _, ?_, ?_⟩
      · rw [mkBlock_downsample]
        exact make_downsample_isSome k.expansion ip p s d a
      · intro blk hblk
        rw [List.eq_of_mem_replicate hblk, mkBlock_downsample]
    · rw [if_neg h12, if_neg h4] at h
      exact Except.noConfusion h

/-- Witness for C3 at a concrete stage build (stride 2 forces a downsample
on the first block only). -/
theorem C3_downsample_iff_witness :
    ∃ first rest,
      [Block.basic ⟨⟨64, 3, 2, 1, false⟩, ⟨false⟩, ⟨64, 3, 1, 1, false⟩, ⟨false⟩,
        some ⟨none, ⟨64, 1, 2, 1, false⟩, ⟨false⟩⟩, 2⟩] = first :: rest ∧
      first.downsample = make_downsample BlockKind.basic.expansion 64 64 2 1 false ∧
      (first.downsample.isSome = true ↔
        ((2 : Nat) ≠ 1 ∨ (64 : Nat) ≠ 64 * BlockKind.basic.expansion)) ∧
      ∀ blk ∈ rest, blk.downsample = none :=
  C3_downsample_iff .basic 64 64 1 2 1 false false _ 64 rfl

/-- Claim C4: with `dilated=True` the assembler builds stage 3 with stride 1
and dilation 2 and stage 4 with stride 1 and dilation 4; with
`dilated=False` stages 3 and 4 are built with stride 2 and dilation 1; in
both modes stage 1 uses stride 1 and stage 2 stride 2. -/
theorem C4_stage_configuration (block : BlockKind) (layers : List Nat)
    (classes : Nat) (last_gamma deep_stem : Bool) (stem_width : Nat)
    (avg_down : Bool) (final_drop : Rat) :
    (match ResNetV1b_init block layers classes true last_gamma deep_stem
        stem_width avg_down final_drop with
     | .ok m => m.layer1.strides = 1 ∧ m.layer1.dilation = 1 ∧
         m.layer2.strides = 2 ∧ m.layer2.dilation = 1 ∧
         m.layer3.strides = 1 ∧ m.layer3.dilation = 2 ∧
         m.layer4.strides = 1 ∧ m.layer4.dilation = 4
     | .error _ => False) ∧
    (match ResNetV1b_init block layers classes false last_gamma deep_stem
        stem_width avg_down final_drop with
     | .ok m => m.layer1.strides = 1 ∧ m.layer1.dilation = 1 ∧
         m.layer2.strides = 2 ∧ m.layer2.dilation = 1 ∧
         m.layer3.strides = 2 ∧ m.layer3.dilation = 1 ∧
         m.layer4.strides = 2 ∧ m.layer4.dilation = 1
     | .error _ => False) := by
  exact ⟨⟨rfl, rfl, rfl, rfl, rfl, rfl, rfl, rfl⟩,
         ⟨rfl, rfl, rfl, rfl, rfl, rfl, rfl, rfl⟩⟩

/-- Claim C5: without deep stem the stem is exactly one 7x7 stride-2
64-filter bias-free convolution; with deep stem it is three chained 3x3
convolutions (stem-width, stem-width, stem-width*2 filters; strides 2, 1, 1)
where the first two are each followed by a norm and an activation and the
third is not. -/
theorem C5_stem_structure (block : BlockKind) (layers : List Nat)
    (classes : Nat) (dilated last_gamma : Bool) (stem_width : Nat)
    (avg_down : Bool) (final_drop : Rat) :
    (match ResNetV1b_init block layers classes dilated last_gamma false
        stem_width avg_down final_drop with
     | .ok m => m.conv1 = [StemLayer.conv ⟨64, 7, 2, 1, false⟩]
     | .error _ => False) ∧
    (match ResNetV1b_init block layers classes dilated last_gamma true
        stem_width avg_down final_drop with
     | .ok m => m.conv1 =
         [StemLayer.conv ⟨stem_width, 3, 2, 1, false⟩, StemLayer.norm ⟨false⟩,
          StemLayer.relu,
          StemLayer.conv ⟨stem_width, 3, 1, 1, false⟩, StemLayer.norm ⟨false⟩,
          StemLayer.relu,
          StemLayer.conv ⟨stem_width * 2, 3, 1, 1, false⟩]
     | .error _ => False) := by
  cases dilated <;> exact ⟨rfl, rfl⟩

/-- Claim C6: whenever a stage needs a downsample sub-graph, with
average-down it is an average-pool (pool size and stride equal to the stage
stride when dilation is 1, pool size 1 otherwise) then a stride-1 1x1
convolution with `planes * expansion` filters then a norm; without
average-down it is a 1x1 convolution with `planes * expansion` filters at
the stage stride then a norm; and the sub-graph attached to the first block
is exactly this construction. -/
theorem C6_downsample_structure (e ip p b s d : Nat) (a g : Bool)
    (hneed : s ≠ 1 ∨ ip ≠ p * e) (hd : d = 1 ∨ d = 2 ∨ d = 4) :
    (first_block_args e ip p b s d a g).map BlockArgs.downsample =
      some (make_downsample e ip p s d a) ∧
    (a = true → d = 1 →
      make_downsample e ip p s d a =
        some ⟨some ⟨s, s⟩, ⟨p * e, 1, 1, 1, false⟩, ⟨false⟩⟩) ∧
    (a = true → d ≠ 1 →
      make_downsample e ip p s d a =
        some ⟨some ⟨1, 1⟩, ⟨p * e, 1, 1, 1, false⟩, ⟨false⟩⟩) ∧
    (a = false →
      make_downsample e ip p s d a =
        some ⟨none, ⟨p * e, 1, s, 1, false⟩, ⟨false⟩⟩) := by
  refine ⟨?_, ?_, ?_, ?_⟩
  · rcases hd with h | h | h <;> subst h <;> rfl
  · intro ha h1
    subst ha; subst h1
    simp [make_downsample, if_pos hneed]
  · intro ha h1
    subst ha
    simp [make_downsample, if_pos hneed, h1]
  · intro ha
    subst ha
    simp [make_downsample, if_pos hneed]

/-- Witness for C6 at a concrete stage build with average-down enabled and
dilation 1. -/
theorem C6_downsample_structure_witness :
    ((first_block_args 1 64 128 1 2 1 true false).map BlockArgs.downsample =
      some (make_downsample 1 64 128 2 1 true)) ∧
    (true = true → (1 : Nat) = 1 →
      make_downsample 1 64 128 2 1 true =
        some ⟨some ⟨2, 2⟩, ⟨128 * 1, 1, 1, 1, false⟩, ⟨false⟩⟩) ∧
    (true = true → (1 : Nat) ≠ 1 →
      make_downsample 1 64 128 2 1 true =
        some ⟨some ⟨1, 1⟩, ⟨128 * 1, 1, 1, 1, false⟩, ⟨false⟩⟩) ∧
    (true = false →
      make_downsample 1 64 128 2 1 true =
        some ⟨none, ⟨128 * 1, 1, 2, 1, false⟩, ⟨false⟩⟩) :=
  C6_downsample_structure 1 64 128 1 2 1 true false (Or.inl (by decide)) (Or.inl rfl)

/-- Claim C7: the basic block's forward pass is conv(3x3, stride, dilation),
norm, activation, conv(3x3, stride 1, previous-dilation), norm; the residual
is the downsample of the original input when present and the input itself
otherwise; the residual is added and a final activation applied — two norm
applications and two activations in total. -/
theorem C7_basic_forward (planes strides dilation previous_dilation : Nat)
    (ds : Option Downsample) (last_gamma : Bool) (x : TensorExpr) :
    ((BasicBlockV1b planes strides dilation ds previous_dilation last_gamma).call x =
      TensorExpr.relu (TensorExpr.add
        (TensorExpr.norm ⟨false⟩ (TensorExpr.conv ⟨planes, 3, 1, previous_dilation, false⟩
          (TensorExpr.relu (TensorExpr.norm ⟨false⟩
            (TensorExpr.conv ⟨planes, 3, strides, dilation, false⟩ x)))))
        (match ds with
         | some dgraph => dgraph.apply x
         | none => x))) ∧
    ((BasicBlockV1b planes strides dilation none previous_dilation last_gamma).call
        TensorExpr.input).normCount = 2 ∧
    ((BasicBlockV1b planes strides dilation none previous_dilation last_gamma).call
        TensorExpr.input).reluCount = 2 := by
  exact ⟨rfl, rfl, rfl⟩

/-- Claim C9: `inplanes` starts at `stem_width * 2` with deep stem and 64
otherwise; every successful stage build updates it to `planes * expansion`;
and after full assembly it equals `512 * expansion` for every
configuration. -/
theorem C9_inplanes_invariant :
    (∀ (deep_stem : Bool) (stem_width : Nat),
      init_inplanes deep_stem stem_width =
        if deep_stem then stem_width * 2 else 64) ∧
    (∀ (k : BlockKind) (ip p b s d : Nat) (a g : Bool) (stage : List Block)
       (ip2 : Nat), make_layer k ip p b s d a g = .ok (stage, ip2) →
         ip2 = p * k.expansion) ∧
    (∀ (block : BlockKind) (layers : List Nat) (classes : Nat)
       (dilated last_gamma deep_stem : Bool) (stem_width : Nat)
       (avg_down : Bool) (final_drop : Rat),
      match ResNetV1b_init block layers classes dilated last_gamma deep_stem
          stem_width avg_down final_drop with
      | .ok m => m.inplanes = 512 * block.expansion
      | .error _ => False) := by
  refine ⟨fun _ _ => rfl, ?_, ?_⟩
  · intro k ip p b s d a g stage ip2 h
    unfold make_layer make_layer_gen at h
    by_cases h12 : d = 1 ∨ d = 2
    · rw [if_pos h12] at h
      injection h with h1
      injection h1 with hL hP
      exact hP.symm
    · by_cases h4 : d = 4
      · rw [if_neg h12, if_pos h4] at h
        injection h with h1
        injection h1 with hL hP
        exact hP.symm
      · rw [if_neg h12, if_neg h4] at h
        exact Except.noConfusion h
  · intro block layers classes dilated last_gamma deep_stem stem_width avg_down final_drop
    cases dilated <;> rfl

/-- Witness for C9 at a concrete successful stage build. -/
theorem C9_inplanes_invariant_witness :
    (64 : Nat) = 64 * BlockKind.basic.expansion :=
  C9_inplanes_invariant.2.1 .basic 64 64 1 1 1 false false
    [Block.basic ⟨⟨64, 3, 1, 1, false⟩, ⟨false⟩, ⟨64, 3, 1, 1, false⟩, ⟨false⟩,
      none, 1⟩] 64 rfl

/-- Claim C10: the last-gamma flag puts the zero gamma initialization on the
bottleneck block's third norm exactly when set, leaves its other norms
plain, and the basic block accepts the flag while producing an identical
configuration either way. -/
theorem C10_last_gamma_scope (p s d : Nat) (ds : Option Downsample) (prev : Nat) :
    (BottleneckV1b p s d ds prev true).bn3 = ⟨true⟩ ∧
    (BottleneckV1b p s d ds prev false).bn3 = ⟨false⟩ ∧
    (∀ g : Bool, (BottleneckV1b p s d ds prev g).bn1 = ⟨false⟩ ∧
      (BottleneckV1b p s d ds prev g).bn2 = ⟨false⟩ ∧
      (BottleneckV1b p s d ds prev g).bn3 = ⟨g⟩) ∧
    BasicBlockV1b p s d ds prev true = BasicBlockV1b p s d ds prev false := by
  exact ⟨rfl, rfl, fun g => ⟨rfl, rfl, rfl⟩, rfl⟩

/-- Claim C8, counterexample: the module exposes seventeen variant
constructor functions, not twenty-one. -/
theorem C8_counterexample :
    all_variant_configs.length = 17 ∧ (17 : Nat) ≠ 21 := by
  decide

/-- Claim C8 (amended): the module exposes seventeen named variant
constructor functions — resnet18/34/50/101/152 in group b and
resnet50/101/152 in each of groups c (deep stem), d (deep stem +
average-down), e (deep stem + average-down + wide stem), s (deep stem +
wide stem, no average-down) — each fixing only block type, per-stage
counts, deep-stem, average-down, stem-width and name prefix, and passing
the remaining arguments through to the network assembler. -/
theorem C8_variant_constructors :
    all_variant_configs.length = 17 ∧
    ((all_variant_configs.countP fun v => v.variant_name == "resnetv1b") = 5 ∧
     (all_variant_configs.countP fun v => v.variant_name == "resnetv1c_") = 3 ∧
     (all_variant_configs.countP fun v => v.variant_name == "resnetv1d_") = 3 ∧
     (all_variant_configs.countP fun v => v.variant_name == "resnetv1e_") = 3 ∧
     (all_variant_configs.countP fun v => v.variant_name == "resnetv1s_") = 3) ∧
    ((all_variant_configs.all fun v => !(v.variant_name == "resnetv1b") ||
        (!v.deep_stem && !v.avg_down && (v.stem_width == 32))) = true ∧
     (all_variant_configs.all fun v => !(v.variant_name == "resnetv1c_") ||
        (v.deep_stem && !v.avg_down && (v.stem_width == 32))) = true ∧
     (all_variant_configs.all fun v => !(v.variant_name == "resnetv1d_") ||
        (v.deep_stem && v.avg_down && (v.stem_width == 32))) = true ∧
     (all_variant_configs.all fun v => !(v.variant_name == "resnetv1e_") ||
        (v.deep_stem && v.avg_down && (v.stem_width == 64))) = true ∧
     (all_variant_configs.all fun v => !(v.variant_name == "resnetv1s_") ||
        (v.deep_stem && !v.avg_down && (v.stem_width == 64))) = true) ∧
    (∀ (c : Nat) (dl lg : Bool) (fd : Rat),
      resnet18_v1b c dl lg fd = apply_variant all_variant_configs[0] c dl lg fd ∧
      resnet34_v1b c dl lg fd = apply_variant all_variant_configs[1] c dl lg fd ∧
      resnet50_v1b c dl lg fd = apply_variant all_variant_configs[2] c dl lg fd ∧
      resnet101_v1b c dl lg fd = apply_variant all_variant_configs[3] c dl lg fd ∧
      resnet152_v1b c dl lg fd = apply_variant all_variant_configs[4] c dl lg fd ∧
      resnet50_v1c c dl lg fd = apply_variant all_variant_configs[5] c dl lg fd ∧
      resnet101_v1c c dl lg fd = apply_variant all_variant_configs[6] c dl lg fd ∧
      resnet152_v1c c dl lg fd = apply_variant all_variant_configs[7] c dl lg fd ∧
      resnet50_v1d c dl lg fd = apply_variant all_variant_configs[8] c dl lg fd ∧
      resnet101_v1d c dl lg fd = apply_variant all_variant_configs[9] c dl lg fd ∧
      resnet152_v1d c dl lg fd = apply_variant all_variant_configs[10] c dl lg fd ∧
      resnet50_v1e c dl lg fd = apply_variant all_variant_configs[11] c dl lg fd ∧
      resnet101_v1e c dl lg fd = apply_variant all_variant_configs[12] c dl lg fd ∧
      resnet152_v1e c dl lg fd = apply_variant all_variant_configs[13] c dl lg fd ∧
      resnet50_v1s c dl lg fd = apply_variant all_variant_configs[14] c dl lg fd ∧
      resnet101_v1s c dl lg fd = apply_variant all_variant_configs[15] c dl lg fd ∧
      resnet152_v1s c dl lg fd = apply_variant all_variant_configs[16] c dl lg fd) := by
  refine ⟨by decide, ⟨by decide, by decide, by decide, by decide, by decide⟩,
    ⟨by decide, by decide, by decide, by decide, by decide⟩, ?_⟩
  intro c dl lg fd
  exact ⟨rfl, rfl, rfl, rfl, rfl, rfl, rfl, rfl, rfl, rfl, rfl, rfl, rfl, rfl,
    rfl, rfl, rfl⟩

end Riptide
